import Mathlib

/-!
Shallow embedding of the based-chip8-pp CHIP-8 core
(src/src/core/libchip8++.hpp and the cycle driver in src/unnamed/part_002),
with theorems checking the natural-language specification against it.

Conventions of the embedding:
* machine integers are Nat with explicit reductions (% 256 for uint8,
  % 65536 for uint16, % 4294967296 for uint32); signed quantities
  (the int8_t stacktop, the long subscript argument) are Int;
* a C++ out-of-bounds array access, which is undefined behavior, is
  signalled by Fault.undef; a diagnosed std::exit(1) by Fault.exit1;
* the free functions in namespace Instructions receive the machine
  BY VALUE (their C++ signature is for example void cls(system Chip8)),
  so byValueCall / byValueCallM model a call: the callee runs on a copy
  whose final state is discarded, and only a fault propagates.
-/

namespace Chip8_core

/-- enum Constants: MEMSIZE = 4096. -/
abbrev MEMSIZE : Nat := 4096

/-- enum Constants: DISPW = 64. -/
abbrev DISPW : Nat := 64

/-- enum Constants: DISPH = 32. -/
abbrev DISPH : Nat := 32

/-- enum Constants: STACKSIZE = 48. -/
abbrev STACKSIZE : Nat := 48

/-- enum Constants: REGCNT = 16. -/
abbrev REGCNT : Nat := 16

/-- enum Constants: PROGRAM_LD_ADDR = 0x200. -/
abbrev PROGRAM_LD_ADDR : Nat := 0x200

/-- enum Constants: KEYCOUNT = 16. -/
abbrev KEYCOUNT : Nat := 16

/-- enum Quirks from libchip8++.hpp. -/
inductive Quirks
  | MATT
  | COWGOD
deriving DecidableEq

/-- Failure modes of the embedded code: Fault.undef marks a C++ undefined
behavior (an out-of-bounds array access), Fault.exit1 marks a diagnosed
std::exit(1). -/
inductive Fault
  | undef
  | exit1
deriving DecidableEq

/-- Result monad for the embedded operations. -/
abbrev M (α : Type) : Type := Except Fault α

/-- class system of libchip8++.hpp. Arrays are embedded as functions from
Nat indices; only indices below the corresponding Constants bound denote
real array cells, and all accesses of the C++ code are bounds-checked in
the embedding, yielding Fault.undef exactly where the C++ indexes out of
bounds. The keypad bitset stores Bool (Key::DOWN = true). The RNG engine
and distribution members are omitted: no operation modelled here draws
from them. -/
structure system where
  memory : Nat → Nat
  display : Nat → Nat
  stack : Nat → Nat
  registers : Nat → Nat
  keys : Nat → Bool
  index_reg : Nat
  program_counter : Nat
  delay_timer : Nat
  sound_timer : Nat
  stacktop : Int
  display_fg : Nat
  display_bg : Nat

/-- The 80-byte hexadecimal font table the constructor places at address 0. -/
def fontData : List Nat :=
  [0xF0, 0x90, 0x90, 0x90, 0xF0, 0x20, 0x60, 0x20, 0x20, 0x70,
   0xF0, 0x10, 0xF0, 0x80, 0xF0, 0xF0, 0x10, 0xF0, 0x10, 0xF0,
   0x90, 0x90, 0xF0, 0x10, 0x10, 0xF0, 0x80, 0xF0, 0x10, 0xF0,
   0xF0, 0x80, 0xF0, 0x90, 0xF0, 0xF0, 0x10, 0x20, 0x40, 0x40,
   0xF0, 0x90, 0xF0, 0x90, 0xF0, 0xF0, 0x90, 0xF0, 0x10, 0xF0,
   0xF0, 0x90, 0xF0, 0x90, 0x90, 0xE0, 0x90, 0xE0, 0x90, 0xE0,
   0xF0, 0x80, 0x80, 0x80, 0xF0, 0xE0, 0x90, 0x90, 0x90, 0xE0,
   0xF0, 0x80, 0xF0, 0x80, 0xF0, 0xF0, 0x80, 0xF0, 0x80, 0x80]

/-- The system constructor: font at address 0, remaining memory zeroed,
display, stack, registers and keys zeroed, index register 0, program
counter 0x200, timers 0, stacktop = INIT_STACK_TOP = -1, default
foreground 0xffffffff and background 0. -/
def system.init : system where
  memory := fun i => fontData.getD i 0
  display := fun _ => 0
  stack := fun _ => 0
  registers := fun _ => 0
  keys := fun _ => false
  index_reg := 0
  program_counter := PROGRAM_LD_ADDR
  delay_timer := 0
  sound_timer := 0
  stacktop := -1
  display_fg := 0xffffffff
  display_bg := 0

/-- system::GetPC. -/
def system.GetPC (s : system) : Nat := s.program_counter

/-- system::SetPC: the uint16_t parameter reduces the value mod 2^16. -/
def system.SetPC (s : system) (v : Nat) : system :=
  { s with program_counter := v % 65536 }

/-- system::GetIndexRegister. -/
def system.GetIndexRegister (s : system) : Nat := s.index_reg

/-- system::SetIndexRegister: uint16_t parameter, value mod 2^16. -/
def system.SetIndexRegister (s : system) (v : Nat) : system :=
  { s with index_reg := v % 65536 }

/-- system::GetRegister: registers[r] on the 16-entry uint8_t array; an
index of 16 or more is an out-of-bounds read (undefined behavior). -/
def system.GetRegister (s : system) (r : Nat) : M Nat :=
  if r < REGCNT then Except.ok (s.registers r % 256) else Except.error Fault.undef

/-- system::SetRegister: registers[r] = v on the 16-entry uint8_t array
(v mod 2^8); an index of 16 or more is an out-of-bounds write. -/
def system.SetRegister (s : system) (r v : Nat) : M system :=
  if r < REGCNT then
    Except.ok { s with registers := fun j => if j = r then v % 256 else s.registers j }
  else Except.error Fault.undef

/-- system::GetKey: keys[k] on the 16-bit keypad bitset. -/
def system.GetKey (s : system) (k : Nat) : M Bool :=
  if k < KEYCOUNT then Except.ok (s.keys k) else Except.error Fault.undef

/-- system::GetPixel: display[idx] with a uint16_t index; an index of
DISPW * DISPH or more is an out-of-bounds read. -/
def system.GetPixel (s : system) (idx : Nat) : M Nat :=
  if idx % 65536 < DISPW * DISPH then Except.ok (s.display (idx % 65536))
  else Except.error Fault.undef

/-- system::SetPixel: display[idx] = v with uint16_t index and uint32_t
value. -/
def system.SetPixel (s : system) (idx v : Nat) : M system :=
  if idx % 65536 < DISPW * DISPH then
    Except.ok { s with display := fun j => if j = idx % 65536 then v % 4294967296 else s.display j }
  else Except.error Fault.undef

/-- system::Fetch: opcode = (memory[pc] << 8) | memory[pc + 1], then
pc += 2. The two byte reads are unchecked array accesses in the C++. -/
def system.Fetch (s : system) : M (Nat × system) :=
  if s.program_counter + 1 < MEMSIZE then
    Except.ok (((s.memory s.program_counter % 256) <<< 8 |||
                 (s.memory (s.program_counter + 1) % 256)) % 65536,
               { s with program_counter := (s.program_counter + 2) % 65536 })
  else Except.error Fault.undef

/-- system::Push: stack[++stacktop] = v. There is no capacity check in the
source: an incremented stacktop outside [0, STACKSIZE) indexes the
48-entry array out of bounds, which is undefined behavior. -/
def system.Push (s : system) (v : Nat) : M system :=
  if 0 ≤ s.stacktop + 1 ∧ s.stacktop + 1 < (STACKSIZE : Int) then
    Except.ok { s with
      stacktop := s.stacktop + 1,
      stack := fun j => if j = (s.stacktop + 1).toNat then v % 65536 else s.stack j }
  else Except.error Fault.undef

/-- system::Pop: return stack[stacktop--]. There is no emptiness check in
the source: a stacktop outside [0, STACKSIZE) (in particular the
empty-stack sentinel -1) indexes out of bounds. -/
def system.Pop (s : system) : M (Nat × system) :=
  if 0 ≤ s.stacktop ∧ s.stacktop < (STACKSIZE : Int) then
    Except.ok (s.stack s.stacktop.toNat % 65536, { s with stacktop := s.stacktop - 1 })
  else Except.error Fault.undef

/-- Outcome of one call to the subscript operator of class system. -/
inductive SubscriptOutcome
  | negativeDiag
  | tooLargeDiag
  | ref (i : Int)
deriving DecidableEq

/-- system::operator[](long i), exactly as written in the source: the
first guard fires for i > 0 and prints the "Negative argument" diagnostic
then exits(1); the second fires for i < MEMSIZE + 1 and prints the "Too
large" diagnostic then exits(1); only when both guards fail is a
reference into memory returned. -/
def system.subscript (i : Int) : SubscriptOutcome :=
  if i > 0 then SubscriptOutcome.negativeDiag
  else if i < (MEMSIZE : Int) + 1 then SubscriptOutcome.tooLargeDiag
  else SubscriptOutcome.ref i

/-- A read through system::operator[]: a diagnostic branch is the process
exiting; the (unreachable) reference branch reads the uint8_t cell. -/
def system.subscriptRead (s : system) (i : Int) : M Nat :=
  match system.subscript i with
  | SubscriptOutcome.ref j =>
    if 0 ≤ j ∧ j < (MEMSIZE : Int) then Except.ok (s.memory j.toNat % 256)
    else Except.error Fault.undef
  | _ => Except.error Fault.exit1

/-- system::reset_display: std::memset(&display[0], 0, DISPH * DISPW)
zeroes DISPH * DISPW = 2048 BYTES, but display is an array of 2048
four-byte uint32_t values (8192 bytes), so exactly the first
DISPH * DISPW / 4 = 512 elements are zeroed and elements 512..2047 keep
their previous values. -/
def system.reset_display (s : system) : system :=
  { s with display := fun i => if i < DISPH * DISPW / 4 then 0 else s.display i }

/-- A call to a void Instructions free function whose system parameter is
passed BY VALUE: the callee transforms a copy, the copy is discarded, and
the caller keeps its own machine unchanged. -/
def byValueCall (f : system → system) (s : system) : system :=
  let _copy := f s
  s

/-- Same call semantics for a callee that can fault: the copy is
discarded on success, and a fault (exit or undefined behavior) stops the
caller too. -/
def byValueCallM (f : system → M system) (s : system) : M system :=
  match f s with
  | Except.ok _ => Except.ok s
  | Except.error e => Except.error e

namespace Instructions

/-- nibble2byte(un, ln) = un << 4 | ln with uint8_t parameters, int
arithmetic, and conversion of the result back to uint8_t. -/
def nibble2byte (un ln : Nat) : Nat :=
  ((un % 256) <<< 4 ||| (ln % 256)) % 256

/-- fetch_nib1(opcode) = opcode >> 12 converted to uint8_t. The uint16_t
operand is promoted to (32-bit) int before the shift. -/
def fetch_nib1 (opcode : Nat) : Nat :=
  ((opcode % 65536) >>> 12) % 256

/-- fetch_nib2(opcode) = (opcode << 4) >> 8 converted to uint8_t. Because
the uint16_t operand is promoted to int, no bits are lost in the left
shift, and the returned byte is (opcode >> 4) & 0xFF: nibbles 2 AND 3,
not nibble 2 alone. -/
def fetch_nib2 (opcode : Nat) : Nat :=
  (((opcode % 65536) <<< 4) >>> 8) % 256

/-- fetch_nib3(opcode) = (opcode << 8) >> 12 converted to uint8_t. With
int promotion this is again (opcode >> 4) & 0xFF: nibbles 2 and 3, the
same value as fetch_nib2. -/
def fetch_nib3 (opcode : Nat) : Nat :=
  (((opcode % 65536) <<< 8) >>> 12) % 256

/-- fetch_nib4(opcode) = (opcode << 12) >> 12 converted to uint8_t. With
int promotion this is opcode & 0xFF: the low byte, nibbles 3 and 4. -/
def fetch_nib4 (opcode : Nat) : Nat :=
  (((opcode % 65536) <<< 12) >>> 12) % 256

/-- Instructions::cls(system Chip8): the transformation the callee applies
to its by-value copy, namely Chip8.reset_display(). -/
def cls (s : system) : system :=
  s.reset_display

/-- Instructions::regaddc: rx and ry are fetch_nib2 and fetch_nib3 of the
opcode (which are the SAME byte under the promoted shifts); RF is cleared,
set to 1 when UINT8_MAX - RX < RY, then RX = RX + RY; the reads for the
sum happen after the flag writes, as in the source. -/
def regaddc (opcode : Nat) (s : system) : M system := do
  let rx := fetch_nib2 opcode
  let ry := fetch_nib3 opcode
  let s ← s.SetRegister 15 0
  let vx ← s.GetRegister rx
  let vy ← s.GetRegister ry
  let s ← if (255 : Int) - (vx : Int) < (vy : Int) then s.SetRegister 15 1 else Except.ok s
  let vx2 ← s.GetRegister rx
  let vy2 ← s.GetRegister ry
  s.SetRegister rx (vx2 + vy2)

/-- The key loop of Instructions::load_key: for i in 0x0..0xf, if
keys[i] == Key::DOWN then registers[rx] = i and PC += 2. There is no
break, so every pressed key stores its index and bumps PC. -/
def keyScan (rx : Nat) : Nat → Nat → system → M system
  | _, 0, s => Except.ok s
  | i, fuel + 1, s => do
    let k ← s.GetKey i
    let s ←
      if k then do
        let s ← s.SetRegister rx i
        Except.ok (s.SetPC (s.GetPC + 2))
      else Except.ok s
    keyScan rx (i + 1) fuel s

/-- Instructions::load_key (FX0A): rewind PC by 2 (uint16_t wraparound),
then scan all 16 keys as in the source loop. -/
def load_key (opcode : Nat) (s : system) : M system := do
  let rx := fetch_nib2 opcode
  let s := s.SetPC ((((s.GetPC : Int) - 2).emod 65536).toNat)
  keyScan rx 0 16 s

/-- Inner column loop of Instructions::draw: for col in 0..7 the local
val_x (a uint8_t that persists across rows) is incremented by col, the
loop breaks when val_x >= DISPW, and a set sprite bit XOR-toggles the
pixel, recording a collision in RF. Returns the machine and the final
val_x. -/
def drawColLoop (sprite val_y : Nat) : Nat → Nat → Nat → system → M (system × Nat)
  | 0, _, val_x, s => Except.ok (s, val_x)
  | fuel + 1, col, val_x, s => do
    let val_x := (val_x + col) % 256
    if val_x ≥ DISPW then Except.ok (s, val_x)
    else do
      let s ←
        if sprite &&& (128 >>> col) ≠ 0 then do
          let p ← s.GetPixel (val_x + val_y * DISPW)
          if p ≠ 0 then do
            let s ← s.SetPixel (val_x + val_y * DISPW) s.display_bg
            s.SetRegister 15 1
          else
            s.SetPixel (val_x + val_y * DISPW) s.display_fg
        else Except.ok s
      drawColLoop sprite val_y fuel (col + 1) val_x s

/-- Row loop of Instructions::draw: each row first reads the sprite byte
through the subscript operator Chip8[I + rows], then adds rows to the
uint8_t val_y and breaks out when val_y >= DISPH, then runs the column
loop. -/
def drawRowLoop : Nat → Nat → Nat → Nat → system → M system
  | 0, _, _, _, s => Except.ok s
  | fuel + 1, rows, val_x, val_y, s => do
    let sprite ← s.subscriptRead ((s.GetIndexRegister : Int) + (rows : Int))
    let val_y := (val_y + rows) % 256
    if val_y ≥ DISPH then Except.ok s
    else do
      let r ← drawColLoop sprite val_y 8 0 val_x s
      drawRowLoop fuel (rows + 1) r.2 val_y r.1

/-- Instructions::draw (DXYN): val_x = registers[fetch_nib2] & 63,
val_y = registers[fetch_nib3] & 31, N = fetch_nib4, RF = 0, then the row
loop. Every sprite byte is read through system::operator[]. -/
def draw (opcode : Nat) (s : system) : M system := do
  let vx ← s.GetRegister (fetch_nib2 opcode)
  let val_x := vx &&& 63
  let vy ← s.GetRegister (fetch_nib3 opcode)
  let val_y := vy &&& 31
  let N := fetch_nib4 opcode
  let s ← s.SetRegister 15 0
  drawRowLoop N 0 val_x val_y s

/-- Instructions::load_reg_into_memory (FX55):
last_reg = fetch_nib2(opcode) (the byte made of nibbles 2 and 3), then
std::copy_n copies last_reg elements - registers[0 .. last_reg - 1], NOT
last_reg + 1 of them - to memory[I ..]; under Quirks::MATT the index
register becomes I + last_reg + 1 afterwards. A count beyond the register
array or a destination past MEMSIZE is out of bounds. -/
def load_reg_into_memory (mode : Quirks) (opcode : Nat) (s : system) : M system := do
  let last_reg := fetch_nib2 opcode
  if last_reg > REGCNT ∨ s.GetIndexRegister + last_reg > MEMSIZE then
    Except.error Fault.undef
  else
    let s1 := { s with memory := (fun j =>
      if s.index_reg ≤ j ∧ j < s.index_reg + last_reg then s.registers (j - s.index_reg) % 256
      else s.memory j) }
    if mode = Quirks.MATT then
      Except.ok (s1.SetIndexRegister (s1.GetIndexRegister + last_reg + 1))
    else Except.ok s1

/-- Instructions::load_memory_into_reg (FX65): the converse copy_n, with
the same last_reg = fetch_nib2(opcode) count and the same Quirks::MATT
index update. -/
def load_memory_into_reg (mode : Quirks) (opcode : Nat) (s : system) : M system := do
  let last_reg := fetch_nib2 opcode
  if last_reg > REGCNT ∨ s.GetIndexRegister + last_reg > MEMSIZE then
    Except.error Fault.undef
  else
    let s1 := { s with registers := (fun j =>
      if j < last_reg then s.memory (s.index_reg + j) % 256 else s.registers j) }
    if mode = Quirks.MATT then
      Except.ok (s1.SetIndexRegister (s1.GetIndexRegister + last_reg + 1))
    else Except.ok s1

end Instructions

/-- One fetch-decode-execute step of cycle (src/unnamed/part_002) along
the 0xF / 0x0A dispatch path: system::Fetch mutates the caller machine
(taken by reference in cycle), then in::load_key(opcode, chip8) is called
with the machine passed by value. -/
def cycle_load_key (s : system) : M system := do
  let r ← s.Fetch
  byValueCallM (Instructions.load_key r.1) r.2

/-- Names for the operations the cycle dispatcher can invoke, plus
assertFail for the failed assert in its case 0x9. -/
inductive Op
  | cls | ret | jmp | call | skip_eq | skip_noteq | skip_xyeq | load | add
  | load_reg | regor | regand | regxor | regaddc | regsubc | regshift_right
  | regsubc_reverse | regshift_left | assertFail | load_idxreg_addr | jmpreg
  | genrandom | draw | skip_ifkeypress | skip_ifkeynotpress | load_dt_to_reg
  | load_key | set_dt | set_st | regadd_idx | sprite | decode_bcd
  | load_reg_into_memory | load_memory_into_reg
deriving DecidableEq

/-- Body of case 0x9 of the cycle dispatcher: assert(fetch_nib4 == 0)
(abort when it fails), then a call to load_idxreg_addr (the source calls
load_idxreg_addr here, not skip_regnoteq). -/
def case9Trace (w : Nat) : List Op :=
  if Instructions.fetch_nib4 w = 0 then [Op.load_idxreg_addr] else [Op.assertFail]

/-- The sequence of operations the fetch_decode_execute switch of cycle
(src/unnamed/part_002) invokes for one fetched opcode, in order. The
missing break statements of the source are reproduced exactly: case 0x0
(after its inner 0xE0/0xEE switch) falls through into case 0x1, and case
0x8 (after its inner ALU switch) falls through into case 0x9. -/
def dispatchTrace (w : Nat) : List Op :=
  let n1 := Instructions.fetch_nib1 w
  let sec := Instructions.nibble2byte (Instructions.fetch_nib3 w) (Instructions.fetch_nib4 w)
  let n4 := Instructions.fetch_nib4 w
  if n1 = 0x0 then
    (if sec = 0xE0 then [Op.cls] else if sec = 0xEE then [Op.ret] else []) ++ [Op.jmp]
  else if n1 = 0x1 then [Op.jmp]
  else if n1 = 0x2 then [Op.call]
  else if n1 = 0x3 then [Op.skip_eq]
  else if n1 = 0x4 then [Op.skip_noteq]
  else if n1 = 0x5 then [Op.skip_xyeq]
  else if n1 = 0x6 then [Op.load]
  else if n1 = 0x7 then [Op.add]
  else if n1 = 0x8 then
    (if n4 = 0x0 then [Op.load_reg]
     else if n4 = 0x1 then [Op.regor]
     else if n4 = 0x2 then [Op.regand]
     else if n4 = 0x3 then [Op.regxor]
     else if n4 = 0x4 then [Op.regaddc]
     else if n4 = 0x5 then [Op.regsubc]
     else if n4 = 0x6 then [Op.regshift_right]
     else if n4 = 0x7 then [Op.regsubc_reverse]
     else if n4 = 0xE then [Op.regshift_left]
     else []) ++ case9Trace w
  else if n1 = 0x9 then case9Trace w
  else if n1 = 0xA then [Op.load_idxreg_addr]
  else if n1 = 0xB then [Op.jmpreg]
  else if n1 = 0xC then [Op.genrandom]
  else if n1 = 0xD then [Op.draw]
  else if n1 = 0xE then
    (if sec = 0x9E then [Op.skip_ifkeypress]
     else if sec = 0xA1 then [Op.skip_ifkeynotpress]
     else [])
  else if n1 = 0xF then
    (if sec = 0x07 then [Op.load_dt_to_reg]
     else if sec = 0x0A then [Op.load_key]
     else if sec = 0x15 then [Op.set_dt]
     else if sec = 0x18 then [Op.set_st]
     else if sec = 0x1E then [Op.regadd_idx]
     else if sec = 0x29 then [Op.sprite]
     else if sec = 0x33 then [Op.decode_bcd]
     else if sec = 0x55 then [Op.load_reg_into_memory]
     else if sec = 0x65 then [Op.load_memory_into_reg]
     else [])
  else []

/-- Program counter of a possibly-faulted machine. -/
def pcOf : M system → Option Nat
  | Except.ok s => some s.program_counter
  | Except.error _ => none

/-- Register r of a possibly-faulted machine. -/
def regOf : M system → Nat → Option Nat
  | Except.ok s, r => some (s.registers r)
  | Except.error _, _ => none

/-- Memory cell i of a possibly-faulted machine. -/
def memOf : M system → Nat → Option Nat
  | Except.ok s, i => some (s.memory i)
  | Except.error _, _ => none

/-- Index register of a possibly-faulted machine. -/
def idxOf : M system → Option Nat
  | Except.ok s => some s.index_reg
  | Except.error _ => none

/-- The fault of a faulted computation, if any. -/
def faultOf {α : Type} : M α → Option Fault
  | Except.ok _ => none
  | Except.error e => some e

/-- Machine with framebuffer pixels 0 and 600 lit, everything else as
constructed. -/
def sC1 : system :=
  { system.init with display := fun i => if i = 0 then 1 else if i = 600 then 1 else 0 }

/-- Machine whose ROM area holds the load_key R0 instruction 0xF00A at
0x200 and again at 0x202, with every key up. -/
def sC5 : system :=
  { system.init with memory := fun i =>
      if i = 0x200 then 0xF0 else if i = 0x201 then 0x0A
      else if i = 0x202 then 0xF0 else if i = 0x203 then 0x0A
      else system.init.memory i }

/-- Same machine as sC5 but with key 3 pressed. -/
def sC5down : system :=
  { sC5 with keys := fun i => i == 3 }

/-- Machine with index register 0x300 and registers R0..RF holding
1..16. -/
def sC6 : system :=
  { system.init with
    index_reg := 0x300,
    registers := fun i => if i < 16 then i + 1 else 0 }

/-- Machine with R0 = 1 and R1 = 2. -/
def sC7 : system :=
  { system.init with registers := fun i => if i = 0 then 1 else if i = 1 then 2 else 0 }

/-- Machine whose 48-entry stack is full (stacktop = 47). -/
def sFull : system :=
  { system.init with stacktop := 47 }

/-- C1: the claim fails on the code. Instructions::cls receives the
system BY VALUE, so after the call the caller still sees framebuffer cell
0 lit; and even the callee local copy keeps cell 600 lit, because
system::reset_display memsets only DISPH * DISPW = 2048 bytes of the
8192-byte uint32_t display array (cells 512..2047 survive). -/
theorem cls_mutation_discarded :
    (byValueCall Instructions.cls sC1).display 0 = 1 ∧
    (Instructions.cls sC1).display 0 = 0 ∧
    (Instructions.cls sC1).display 600 = 1 := by decide

/-- C2: the claim fails on the code. The dispatcher of cycle executes TWO
operations for one fetched opcode: 0x00E0 runs cls and then, through the
missing break, the case 0x1 jump; 0x8100 runs load_reg and then falls
into case 0x9. -/
theorem dispatch_fallthrough_executes_two_ops :
    dispatchTrace 0x00E0 = [Op.cls, Op.jmp] ∧
    dispatchTrace 0x8100 = [Op.load_reg, Op.load_idxreg_addr] ∧
    1 < (dispatchTrace 0x00E0).length := by decide

/-- C3: the claim fails on the code. At opcode 0xABCD the codec returns
fetch_nib1 = 0xA as claimed, but fetch_nib2 = 0xBC, fetch_nib3 = 0xBC and
fetch_nib4 = 0xCD: integer promotion of the uint16_t operand keeps the
neighbouring nibble in the shifted value, so the upper four bits of the
returned byte are not zero. -/
theorem fetch_nib_returns_multiple_nibbles :
    Instructions.fetch_nib1 0xABCD = 0xA ∧
    Instructions.fetch_nib2 0xABCD = 0xBC ∧
    Instructions.fetch_nib3 0xABCD = 0xBC ∧
    Instructions.fetch_nib4 0xABCD = 0xCD ∧
    ¬ Instructions.fetch_nib2 0xABCD < 16 ∧
    ¬ Instructions.fetch_nib3 0xABCD < 16 ∧
    ¬ Instructions.fetch_nib4 0xABCD < 16 := by decide

/-- C4: the claim fails on the code. In the claimed scenario (fresh
machine: R0 = R1 = 0, I = 0 pointing at the font byte 0xF0, all-clear
framebuffer, opcode 0xD011) draw reads its first sprite byte through
system::operator[], whose inverted guards exit the process on every
argument, so the instruction terminates the program instead of setting
pixels (0,0)..(3,0). -/
theorem draw_scenario_terminates_via_subscript :
    system.init.memory 0x0 = 0xF0 ∧
    system.init.index_reg = 0 ∧
    faultOf (Instructions.draw 0xD011 system.init) = some Fault.exit1 ∧
    faultOf (byValueCallM (Instructions.draw 0xD011) system.init) = some Fault.exit1 := by decide

/-- C5: the claim fails on the code. With the load_key R0 opcode 0xF00A in
the ROM and every key up, each cycle still advances the caller PC by 2
(0x200 to 0x202 to 0x204): Fetch increments the real machine but
load_key receives it by value, so the PC rewind happens on a discarded
copy; and with key 3 down the caller R0 still never receives the key
index. -/
theorem load_key_cycle_advances_pc :
    sC5.program_counter = 0x200 ∧
    (List.range 16).all (fun i => ! sC5.keys i) = true ∧
    pcOf (cycle_load_key sC5) = some 0x202 ∧
    pcOf (cycle_load_key sC5 >>= cycle_load_key) = some 0x204 ∧
    regOf (cycle_load_key sC5) 0 = some 0 ∧
    sC5down.keys 3 = true ∧
    regOf (cycle_load_key sC5down) 0 = some 0 := by decide

/-- C6: the claim fails on the code. For opcode 0xF055 (X = 0, so the
claim copies the single register R0 to memory[I]) on a machine with
I = 0x300 and R0..R4 = 1..5: the caller memory cell 0x300 is unchanged
(the machine is passed by value), while the discarded callee copy wrote 5
cells (copy_n count = fetch_nib2(0xF055) = 0x05, not X + 1 = 1); with
Quirks::MATT the caller index register also stays 0x300; and 0xF065
leaves the caller R0 at its old value 1. -/
theorem block_copy_wrong_count_and_discarded :
    memOf (byValueCallM (Instructions.load_reg_into_memory Quirks.COWGOD 0xF055) sC6) 0x300 = some 0 ∧
    memOf (Instructions.load_reg_into_memory Quirks.COWGOD 0xF055 sC6) 0x300 = some 1 ∧
    memOf (Instructions.load_reg_into_memory Quirks.COWGOD 0xF055 sC6) 0x304 = some 5 ∧
    idxOf (byValueCallM (Instructions.load_reg_into_memory Quirks.MATT 0xF055) sC6) = some 0x300 ∧
    regOf (byValueCallM (Instructions.load_memory_into_reg Quirks.COWGOD 0xF065) sC6) 0 = some 1 := by decide

/-- C7: the claim fails on the code. For opcode 0x8014 (claim reading:
RX = R0 = 1, RY = R1 = 2, so R0 should become 3): fetch_nib2 and
fetch_nib3 yield the same byte 0x01, so the code adds R1 to itself on a
by-value copy; the caller R0 stays 1, and even the callee copy leaves
R0 = 1 while doubling R1 to 4. -/
theorem regaddc_operands_conflated_and_discarded :
    sC7.registers 0 = 1 ∧
    sC7.registers 1 = 2 ∧
    Instructions.fetch_nib2 0x8014 = Instructions.fetch_nib3 0x8014 ∧
    regOf (byValueCallM (Instructions.regaddc 0x8014) sC7) 0 = some 1 ∧
    regOf (Instructions.regaddc 0x8014 sC7) 0 = some 1 ∧
    regOf (Instructions.regaddc 0x8014 sC7) 1 = some 4 := by decide

/-- C8: the claim fails on the code. system::Push on a full stack
(stacktop = 47) writes stack[48] and system::Pop on an empty stack
(stacktop = -1) reads stack[-1]: both are unchecked out-of-bounds array
accesses - undefined behavior, not a saturating no-op nor a typed
runtime fault. -/
theorem push_full_pop_empty_out_of_bounds :
    sFull.stacktop = 47 ∧
    faultOf (sFull.Push 0x200) = some Fault.undef ∧
    system.init.stacktop = -1 ∧
    faultOf system.init.Pop = some Fault.undef := by decide

/-- C9: for every 16-bit value v and machine whose stacktop lies in
[-1, STACKSIZE - 1), Push(v) succeeds, the following Pop() returns
exactly v, and the stacktop after the pair equals its value before. -/
theorem push_pop_roundtrip (s : system) (v : Nat) (hv : v < 65536)
    (h1 : (-1 : Int) ≤ s.stacktop) (h2 : s.stacktop < (STACKSIZE : Int) - 1) :
    ∃ s1 s2, s.Push v = Except.ok s1 ∧ s1.Pop = Except.ok (v, s2) ∧
      s2.stacktop = s.stacktop := by
  have h48 : (STACKSIZE : Int) = 48 := by norm_num
  rw [h48] at h2
  have hc1 : (0 : Int) ≤ s.stacktop + 1 := by omega
  have hc2 : s.stacktop + 1 < (48 : Int) := by omega
  refine ⟨{ s with
      stacktop := s.stacktop + 1,
      stack := fun j => if j = (s.stacktop + 1).toNat then v % 65536 else s.stack j },
    { s with
      stacktop := s.stacktop + 1 - 1,
      stack := fun j => if j = (s.stacktop + 1).toNat then v % 65536 else s.stack j },
    ?_, ?_, ?_⟩
  · simp [system.Push, hc1, hc2]
  · simp [system.Pop, hc1, hc2, Nat.mod_eq_of_lt hv]
  · simp

/-- Witness for C9: the roundtrip at the freshly constructed machine and
the address 0x234. -/
theorem push_pop_roundtrip_witness :
    (0x234 : Nat) < 65536 ∧ (-1 : Int) ≤ system.init.stacktop ∧
    system.init.stacktop < (STACKSIZE : Int) - 1 ∧
    (∃ s1 s2, system.init.Push 0x234 = Except.ok s1 ∧
      s1.Pop = Except.ok (0x234, s2) ∧ s2.stacktop = system.init.stacktop) :=
  ⟨by norm_num, by decide, by decide,
   push_pop_roundtrip system.init 0x234 (by norm_num) (by decide) (by decide)⟩

/-- C10: system::operator[] never reaches its return statement: every
positive index is diagnosed by the first guard (the one whose message
speaks of a negative argument) and every index not caught there satisfies
i < MEMSIZE + 1 and is diagnosed as too large; both branches exit the
process, so no call yields a memory reference. -/
theorem subscript_guards_inverted (i : Int) :
    (0 < i → system.subscript i = SubscriptOutcome.negativeDiag) ∧
    (i ≤ 0 → system.subscript i = SubscriptOutcome.tooLargeDiag) ∧
    ∀ m : Int, system.subscript i ≠ SubscriptOutcome.ref m := by
  unfold system.subscript
  by_cases h : 0 < i
  · refine ⟨fun _ => ?_, fun h2 => ?_, fun m => ?_⟩
    · rw [if_pos h]
    · omega
    · rw [if_pos h]; simp
  · have h0 : i ≤ 0 := by omega
    have hlt : i < (MEMSIZE : Int) + 1 := by
      have hm : (MEMSIZE : Int) = 4096 := by norm_num
      omega
    refine ⟨fun h1 => ?_, fun _ => ?_, fun m => ?_⟩
    · omega
    · rw [if_neg h, if_pos hlt]
    · rw [if_neg h, if_pos hlt]; simp

/-- Witness for C10: both diagnostic branches observed at concrete
indices 2 and 0. -/
theorem subscript_guards_inverted_witness :
    system.subscript 2 = SubscriptOutcome.negativeDiag ∧
    system.subscript 0 = SubscriptOutcome.tooLargeDiag :=
  ⟨(subscript_guards_inverted 2).1 (by norm_num),
   (subscript_guards_inverted 0).2.1 (by norm_num)⟩

end Chip8_core
